import Mathlib

/-!
Verification of the solar-energy advisor's calculation engine.

The engine (source: `src/App.jsx`) is a pure function of
(rooms, devices, solarSettings).  JavaScript numbers are modelled as
rationals (`ℚ`); the one place the source produces `Infinity`
(an ROI with zero yearly savings) is modelled with `WithTop ℚ`, whose
top element behaves like JS `Infinity` under `Math.min` and `<`.
Display-only decimal formatting (`toFixed`) is modelled by a simple
decimal renderer; no verified property depends on it.
-/

namespace SolarAdvisor

/-- A device record, as stored and passed to the engine
(source lines 90‑95 and the device creation form). -/
structure Device where
  id : String
  roomId : String
  name : String
  quantity : ℚ
  powerW : ℚ
  usageHours : ℚ
  deriving DecidableEq, Repr

/-- A room record (source lines 85‑88). -/
structure Room where
  id : String
  name : String
  purpose : String
  deriving DecidableEq, Repr

/-- Solar configuration (source lines 76‑83).  `lifetimeYears` drives the
`for (let i = 0; i < lifetimeYears; i++)` loop and is modelled as a
natural iteration count. -/
structure SolarSettings where
  electricityRate : ℚ
  solarCostPerKW : ℚ
  efficiencyFactor : ℚ
  sunlightHours : ℚ
  lifetimeYears : ℕ
  annualInflation : ℚ
  deriving DecidableEq, Repr

/-- The default settings `initialSolarSettings` (source lines 76‑83). -/
def initialSolarSettings : SolarSettings :=
  { electricityRate := 9
    solarCostPerKW := 70000
    efficiencyFactor := 1
    sunlightHours := 5
    lifetimeYears := 25
    annualInflation := 1/20 }

/-- Per-device derived metrics (source lines 219‑224). -/
structure DeviceMetrics where
  energyKWhDay : ℚ
  costDay : ℚ
  costMonth : ℚ
  costYear : ℚ
  deriving DecidableEq, Repr

/-- The literal 365.25 used throughout the source. -/
def daysPerYear : ℚ := 36525 / 100

/-- `calculateDeviceMetrics` (source lines 213‑225). -/
def calculateDeviceMetrics (device : Device) (rate : ℚ) : DeviceMetrics :=
  let powerKW := device.powerW / 1000
  let energyKWhDay := powerKW * device.quantity * device.usageHours
  let costDay := energyKWhDay * rate
  { energyKWhDay := energyKWhDay
    costDay := costDay
    costMonth := costDay * (daysPerYear / 12)
    costYear := costDay * daysPerYear }

/-- A device together with its metrics, as produced by
`roomDevices.map(device => ({ ...device, metrics }))` (source line 250). -/
structure DeviceWithMetrics where
  device : Device
  metrics : DeviceMetrics
  deriving DecidableEq, Repr

/-- Per-room derived metrics (source lines 270‑277). -/
structure RoomMetrics where
  energyKWhDay : ℚ
  costYearGrid : ℚ
  requiredCapacityKW : ℚ
  installationCost : ℚ
  roiYears : WithTop ℚ
  yearlySavings : ℚ
  deriving DecidableEq, Repr

/-- A room spread with its devices and metrics, as produced by
`{ ...room, devices, metrics }` (source lines 267‑278). -/
structure RoomWithMetrics where
  id : String
  name : String
  purpose : String
  devices : List DeviceWithMetrics
  metrics : RoomMetrics
  deriving DecidableEq, Repr

/-- Building-level metrics (source lines 301‑310). -/
structure BuildingMetrics where
  totalEnergyKWhDay : ℚ
  totalCostYearGrid : ℚ
  totalRequiredCapacityKW : ℚ
  totalInstallationCost : ℚ
  totalROIYears : WithTop ℚ
  longTermSavings : ℚ
  paybackYears : WithTop ℚ
  yearlySavings : ℚ
  deriving DecidableEq, Repr

/-- The full result of `calculateBuildingTotals` (source lines 299‑311). -/
structure BuildingTotals where
  rooms : List RoomWithMetrics
  building : BuildingMetrics
  deriving DecidableEq, Repr

/-- The display cap `999` applied to ROI via `Math.min(roiYears, 999)`
(source lines 275 and 306). -/
def roiCap : WithTop ℚ := ((999 : ℚ) : WithTop ℚ)

/-- `devices.filter(d => d.roomId === room.id)` (source line 241). -/
def roomDeviceList (devices : List Device) (room : Room) : List Device :=
  devices.filter (fun d => d.roomId == room.id)

/-- The `devicesWithMetrics` list of a room (source lines 246‑251). -/
def roomDevicesWithMetrics (devices : List Device) (rate : ℚ) (room : Room) :
    List DeviceWithMetrics :=
  (roomDeviceList devices room).map
    (fun d => { device := d, metrics := calculateDeviceMetrics d rate })

/-- The accumulated `roomEnergyKWhDay` (source lines 243, 248). -/
def roomEnergyKWhDay (devices : List Device) (rate : ℚ) (room : Room) : ℚ :=
  ((roomDevicesWithMetrics devices rate room).map
    (fun dm => dm.metrics.energyKWhDay)).sum

/-- The accumulated `roomCostYearGrid` (source lines 244, 249). -/
def roomCostYearGrid (devices : List Device) (rate : ℚ) (room : Room) : ℚ :=
  ((roomDevicesWithMetrics devices rate room).map
    (fun dm => dm.metrics.costYear)).sum

/-- `annualGenerationPerKW = 365.25 * sunlightHours * efficiencyFactor`
(source lines 257 and 283, the same expression at room and building level). -/
def annualGenerationPerKW (s : SolarSettings) : ℚ :=
  daysPerYear * s.sunlightHours * s.efficiencyFactor

/-- Per-room `requiredCapacityKW` with the division-by-zero guard
(source lines 256‑259): `annualGenerationPerKW > 0 ?
annualConsumptionKWh / annualGenerationPerKW : 0`. -/
def roomRequiredCapacityKW (devices : List Device) (s : SolarSettings)
    (room : Room) : ℚ :=
  if annualGenerationPerKW s > 0 then
    roomEnergyKWhDay devices s.electricityRate room * daysPerYear
      / annualGenerationPerKW s
  else 0

/-- Per-room `installationCost = requiredCapacityKW * solarCostPerKW`
(source line 260). -/
def roomInstallationCost (devices : List Device) (s : SolarSettings)
    (room : Room) : ℚ :=
  roomRequiredCapacityKW devices s room * s.solarCostPerKW

/-- Per-room unclamped `roiYears = yearlySavings > 0 ?
installationCost / yearlySavings : Infinity` (source line 262);
`yearlySavings` is `roomCostYearGrid` (source line 261). -/
def roomRoiYears (devices : List Device) (s : SolarSettings)
    (room : Room) : WithTop ℚ :=
  if roomCostYearGrid devices s.electricityRate room > 0 then
    ((roomInstallationCost devices s room
       / roomCostYearGrid devices s.electricityRate room : ℚ) : WithTop ℚ)
  else ⊤

/-- The per-room entry of the mapped rooms list
(source lines 240‑279): the room's own fields spread into the result,
plus `devices` and `metrics`.  The `metrics.requiredCapacityKW` field
carries the extra floor `requiredCapacityKW > 0 ? requiredCapacityKW : 0`
(source line 273) and `metrics.roiYears` the cap `Math.min(roiYears, 999)`
(source line 275). -/
def computeRoomWithMetrics (devices : List Device) (s : SolarSettings)
    (room : Room) : RoomWithMetrics :=
  { id := room.id
    name := room.name
    purpose := room.purpose
    devices := roomDevicesWithMetrics devices s.electricityRate room
    metrics :=
      { energyKWhDay := roomEnergyKWhDay devices s.electricityRate room
        costYearGrid := roomCostYearGrid devices s.electricityRate room
        requiredCapacityKW :=
          if roomRequiredCapacityKW devices s room > 0 then
            roomRequiredCapacityKW devices s room
          else 0
        installationCost := roomInstallationCost devices s room
        roiYears := min (roomRoiYears devices s room) roiCap
        yearlySavings := roomCostYearGrid devices s.electricityRate room } }

/-- The accumulated `totalEnergyKWhDay` (source lines 237, 264). -/
def totalEnergyKWhDay (roomsWithMetrics : List RoomWithMetrics) : ℚ :=
  (roomsWithMetrics.map (fun r => r.metrics.energyKWhDay)).sum

/-- The accumulated `totalCostYearGrid` (source lines 238, 265). -/
def totalCostYearGrid (roomsWithMetrics : List RoomWithMetrics) : ℚ :=
  (roomsWithMetrics.map (fun r => r.metrics.costYearGrid)).sum

/-- Building-level `totalRequiredCapacityKW` with the same guard
(source lines 282‑285). -/
def totalRequiredCapacityKW (roomsWithMetrics : List RoomWithMetrics)
    (s : SolarSettings) : ℚ :=
  if annualGenerationPerKW s > 0 then
    totalEnergyKWhDay roomsWithMetrics * daysPerYear / annualGenerationPerKW s
  else 0

/-- Building-level `totalInstallationCost` (source line 286). -/
def totalInstallationCost (roomsWithMetrics : List RoomWithMetrics)
    (s : SolarSettings) : ℚ :=
  totalRequiredCapacityKW roomsWithMetrics s * s.solarCostPerKW

/-- Building-level unclamped `totalROIYears` (source lines 287‑288);
`totalYearlySavings` is `totalCostYearGrid`. -/
def totalROIYearsUnclamped (roomsWithMetrics : List RoomWithMetrics)
    (s : SolarSettings) : WithTop ℚ :=
  if totalCostYearGrid roomsWithMetrics > 0 then
    ((totalInstallationCost roomsWithMetrics s
       / totalCostYearGrid roomsWithMetrics : ℚ) : WithTop ℚ)
  else ⊤

/-- The long-term savings loop (source lines 291‑296):
each iteration adds the current `gridCost` to `futureSavings`, then
multiplies `gridCost` by `(1 + annualInflation)` for the next one. -/
def futureSavingsLoop (gridCost inflation : ℚ) : ℕ → ℚ
  | 0 => 0
  | n + 1 => gridCost + futureSavingsLoop (gridCost * (1 + inflation)) inflation n

/-- The `building` part of the returned object (source lines 281‑310).
Note that the returned `totalROIYears` field is capped at 999 while the
`paybackYears` field reuses the *unclamped* local `totalROIYears`
variable (source lines 306 and 308). -/
def buildingFromRooms (roomsWithMetrics : List RoomWithMetrics)
    (s : SolarSettings) : BuildingMetrics :=
  { totalEnergyKWhDay := totalEnergyKWhDay roomsWithMetrics
    totalCostYearGrid := totalCostYearGrid roomsWithMetrics
    totalRequiredCapacityKW := totalRequiredCapacityKW roomsWithMetrics s
    totalInstallationCost := totalInstallationCost roomsWithMetrics s
    totalROIYears := min (totalROIYearsUnclamped roomsWithMetrics s) roiCap
    longTermSavings :=
      futureSavingsLoop (totalCostYearGrid roomsWithMetrics) s.annualInflation
        s.lifetimeYears - totalInstallationCost roomsWithMetrics s
    paybackYears := totalROIYearsUnclamped roomsWithMetrics s
    yearlySavings := totalCostYearGrid roomsWithMetrics }

/-- `calculateBuildingTotals` (source lines 234‑312). -/
def calculateBuildingTotals (rooms : List Room) (devices : List Device)
    (s : SolarSettings) : BuildingTotals :=
  let roomsWithMetrics := rooms.map (computeRoomWithMetrics devices s)
  { rooms := roomsWithMetrics
    building := buildingFromRooms roomsWithMetrics s }

/-- Decimal rendering with one digit after the point, modelling the
display-only `Number.prototype.toFixed(1)` calls of the source for the
nonnegative finite values that occur there.  No verified property
depends on this function. -/
def ratToFixed1 (q : ℚ) : String :=
  let tenths : ℤ := round (q * 10)
  toString (tenths / 10) ++ "." ++ toString ((tenths % 10).natAbs)

/-- `toFixed(1)` lifted to the ROI type; JS renders `Infinity.toFixed(1)`
as the string "Infinity". -/
def roiToFixed1 (x : WithTop ℚ) : String :=
  WithTop.recTopCoe "Infinity" ratToFixed1 x

/-- One entry of the `analysisPayload` sent to the advisory service
(source lines 323‑329).  The source formats the three numeric fields
with `toFixed` before sending; the underlying numeric values are kept
here and the formatting is not modelled, since no claim depends on it. -/
structure PayloadEntry where
  roomName : String
  yearlyCost_INR : ℚ
  requiredCapacity_KW : ℚ
  roiYears : WithTop ℚ
  suggestedAction : String
  deriving DecidableEq, Repr

/-- The `analysisPayload` built from the pre-analyzed rooms
(source lines 323‑329), including the threshold-derived
`suggestedAction` tag. -/
def analysisPayload (roomAnalysis : List RoomWithMetrics) : List PayloadEntry :=
  roomAnalysis.map (fun r =>
    { roomName := r.name
      yearlyCost_INR := r.metrics.costYearGrid
      requiredCapacity_KW := r.metrics.requiredCapacityKW
      roiYears := r.metrics.roiYears
      suggestedAction :=
        if r.metrics.roiYears < ((5 : ℚ) : WithTop ℚ) then "Convert to Solar"
        else if r.metrics.roiYears < ((10 : ℚ) : WithTop ℚ) then "Hybrid Model"
        else "Stay on Grid" })

/-- One per-room entry of a recommendation (source lines 369‑372, 403‑407). -/
structure RoomRecommendation where
  roomName : String
  suggestion : String
  reasoning : String
  deriving DecidableEq, Repr

/-- The recommendation object (source lines 357‑376 schema,
lines 398‑408 fallback). -/
structure Recommendation where
  summary : String
  totalSavings : ℚ
  breakevenPeriod : ℚ
  capacityNeeded : ℚ
  roomRecommendations : List RoomRecommendation
  deriving DecidableEq, Repr

/-- The possible outcomes of the external advisory call
(source lines 380‑395): the `fetch`/`response.json()` step may reject
(`fetchError`), the result may lack the expected
`candidates[0].content.parts[0].text` (`missingJsonText`, which the
source turns into a thrown error caught by the same handler),
`JSON.parse(jsonText)` may throw (`invalidJson`), or a well-formed
recommendation is parsed. -/
inductive AdvisoryOutcome where
  | fetchError
  | missingJsonText
  | invalidJson
  | parsed (result : Recommendation)
  deriving DecidableEq, Repr

/-- Whether an advisory outcome is one of the failure modes handled by
the `catch` block of the source. -/
def AdvisoryOutcome.isFailure : AdvisoryOutcome → Bool
  | .parsed _ => false
  | _ => true

/-- The rule-based fallback recommendation built in the `catch` block
of `generateLLMRecommendation` (source lines 398‑408). -/
def fallbackRecommendation (roomAnalysis : List RoomWithMetrics) : Recommendation :=
  { summary := "AI recommendation service is unavailable. Falling back to rule-based analysis: Rooms with ROI < 5 years are suggested for solar conversion."
    totalSavings := 0
    breakevenPeriod := 0
    capacityNeeded := 0
    roomRecommendations := roomAnalysis.map (fun r =>
      { roomName := r.name
        suggestion :=
          if r.metrics.roiYears < ((5 : ℚ) : WithTop ℚ) then
            "Convert to Solar (Rule-Based)"
          else "Stay on Grid (Rule-Based)"
        reasoning :=
          if r.metrics.roiYears < ((5 : ℚ) : WithTop ℚ) then
            "High usage and good ROI of " ++ roiToFixed1 r.metrics.roiYears
              ++ " years."
          else
            "Low usage or high ROI of " ++ roiToFixed1 r.metrics.roiYears
              ++ " years." }) }

/-- `generateLLMRecommendation` (source lines 322‑410), as a function of
the advisory call's outcome: the parsed response is returned on
success, and every failure mode reaches the `catch` block and yields the
rule-based fallback.  The function is total — the source never rethrows. -/
def generateLLMRecommendation (outcome : AdvisoryOutcome)
    (roomAnalysis : List RoomWithMetrics) : Recommendation :=
  match outcome with
  | .parsed result => result
  | _ => fallbackRecommendation roomAnalysis

/-- Whether some room of the list carries this device's `roomId`,
i.e. the device is not an orphan (the complement of the devices ignored
by every `devices.filter(d => d.roomId === room.id)` pass,
source lines 240‑241). -/
def knownRoom (rooms : List Room) (d : Device) : Bool :=
  rooms.any (fun room => d.roomId == room.id)

/-- Sample room used to instantiate universally quantified theorems
(the spec's worked example "Lab A"). -/
def sampleRoom : Room := { id := "r1", name := "Lab A", purpose := "Lab" }

/-- Sample device of the spec's worked example:
2 × 1500 W for 6 h/day in room "r1". -/
def sampleDevice : Device :=
  { id := "d1", roomId := "r1", name := "AC", quantity := 2
    powerW := 1500, usageHours := 6 }

/-- A device with zero usage hours, for the degenerate-input instances. -/
def idleDevice : Device :=
  { id := "d2", roomId := "r1", name := "Heater", quantity := 3
    powerW := 2000, usageHours := 0 }

/-- Settings with zero sunlight, for the zero-generation instances. -/
def settingsNoSun : SolarSettings :=
  { initialSolarSettings with sunlightHours := 0 }

/-- Settings with zero inflation and a 2-year lifetime, for the
long-term-savings instances. -/
def settingsFlat : SolarSettings :=
  { initialSolarSettings with annualInflation := 0, lifetimeYears := 2 }

/-- A room-with-metrics record with an ROI below the 5-year threshold,
for the recommendation-fallback instances. -/
def sampleRoomAnalysis : RoomWithMetrics :=
  { id := "r1", name := "Lab A", purpose := "Lab", devices := []
    metrics :=
      { energyKWhDay := 18, costYearGrid := 59171, requiredCapacityKW := 18/5
        installationCost := 252000, roiYears := ((43/10 : ℚ) : WithTop ℚ)
        yearlySavings := 59171 } }

/-! Projection lemmas: each field of the computed records, by definition. -/

@[simp] lemma calculateBuildingTotals_rooms (rooms : List Room)
    (devices : List Device) (s : SolarSettings) :
    (calculateBuildingTotals rooms devices s).rooms
      = rooms.map (computeRoomWithMetrics devices s) := rfl

@[simp] lemma calculateBuildingTotals_building (rooms : List Room)
    (devices : List Device) (s : SolarSettings) :
    (calculateBuildingTotals rooms devices s).building
      = buildingFromRooms (rooms.map (computeRoomWithMetrics devices s)) s := rfl

@[simp] lemma computeRoomWithMetrics_energy (devices : List Device)
    (s : SolarSettings) (room : Room) :
    (computeRoomWithMetrics devices s room).metrics.energyKWhDay
      = roomEnergyKWhDay devices s.electricityRate room := rfl

@[simp] lemma computeRoomWithMetrics_costYearGrid (devices : List Device)
    (s : SolarSettings) (room : Room) :
    (computeRoomWithMetrics devices s room).metrics.costYearGrid
      = roomCostYearGrid devices s.electricityRate room := rfl

@[simp] lemma computeRoomWithMetrics_requiredCapacityKW (devices : List Device)
    (s : SolarSettings) (room : Room) :
    (computeRoomWithMetrics devices s room).metrics.requiredCapacityKW
      = (if roomRequiredCapacityKW devices s room > 0 then
          roomRequiredCapacityKW devices s room else 0) := rfl

@[simp] lemma computeRoomWithMetrics_installationCost (devices : List Device)
    (s : SolarSettings) (room : Room) :
    (computeRoomWithMetrics devices s room).metrics.installationCost
      = roomInstallationCost devices s room := rfl

@[simp] lemma computeRoomWithMetrics_roiYears (devices : List Device)
    (s : SolarSettings) (room : Room) :
    (computeRoomWithMetrics devices s room).metrics.roiYears
      = min (roomRoiYears devices s room) roiCap := rfl

@[simp] lemma computeRoomWithMetrics_yearlySavings (devices : List Device)
    (s : SolarSettings) (room : Room) :
    (computeRoomWithMetrics devices s room).metrics.yearlySavings
      = roomCostYearGrid devices s.electricityRate room := rfl

@[simp] lemma buildingFromRooms_totalEnergyKWhDay
    (rwm : List RoomWithMetrics) (s : SolarSettings) :
    (buildingFromRooms rwm s).totalEnergyKWhDay = totalEnergyKWhDay rwm := rfl

@[simp] lemma buildingFromRooms_totalCostYearGrid
    (rwm : List RoomWithMetrics) (s : SolarSettings) :
    (buildingFromRooms rwm s).totalCostYearGrid = totalCostYearGrid rwm := rfl

@[simp] lemma buildingFromRooms_totalRequiredCapacityKW
    (rwm : List RoomWithMetrics) (s : SolarSettings) :
    (buildingFromRooms rwm s).totalRequiredCapacityKW
      = totalRequiredCapacityKW rwm s := rfl

@[simp] lemma buildingFromRooms_totalInstallationCost
    (rwm : List RoomWithMetrics) (s : SolarSettings) :
    (buildingFromRooms rwm s).totalInstallationCost
      = totalInstallationCost rwm s := rfl

@[simp] lemma buildingFromRooms_totalROIYears
    (rwm : List RoomWithMetrics) (s : SolarSettings) :
    (buildingFromRooms rwm s).totalROIYears
      = min (totalROIYearsUnclamped rwm s) roiCap := rfl

@[simp] lemma buildingFromRooms_paybackYears
    (rwm : List RoomWithMetrics) (s : SolarSettings) :
    (buildingFromRooms rwm s).paybackYears
      = totalROIYearsUnclamped rwm s := rfl

@[simp] lemma buildingFromRooms_longTermSavings
    (rwm : List RoomWithMetrics) (s : SolarSettings) :
    (buildingFromRooms rwm s).longTermSavings
      = futureSavingsLoop (totalCostYearGrid rwm) s.annualInflation
          s.lifetimeYears - totalInstallationCost rwm s := rfl

/-! Helper lemmas shared by several claims. -/

/-- Filtering twice with a stronger predicate first changes nothing. -/
lemma filter_filter_of_imp {α : Type} (p q : α → Bool) (l : List α)
    (h : ∀ a, p a = true → q a = true) :
    (l.filter q).filter p = l.filter p := by
  induction l with
  | nil => rfl
  | cons a t ih =>
    cases hq : q a with
    | false =>
      have hp : p a = false := by
        cases hpa : p a with
        | false => rfl
        | true => exact Bool.noConfusion ((h a hpa).symm.trans hq)
      simp [List.filter_cons, hq, hp, ih]
    | true =>
      cases hp : p a with
      | false => simp [List.filter_cons, hq, hp, ih]
      | true => simp [List.filter_cons, hq, hp, ih]

/-- Closed form of the long-term savings loop: accumulating the current
grid cost and then inflating it for the next iteration yields the
geometric sum whose first term is uninflated. -/
lemma futureSavingsLoop_closed (g c : ℚ) (n : ℕ) :
    futureSavingsLoop g c n = ∑ i ∈ Finset.range n, g * (1 + c) ^ i := by
  induction n generalizing g with
  | zero => simp [futureSavingsLoop]
  | succ n ih =>
    show g + futureSavingsLoop (g * (1 + c)) c n = _
    rw [ih, Finset.sum_range_succ']
    have hs : ∑ i ∈ Finset.range n, g * (1 + c) * (1 + c) ^ i
        = ∑ i ∈ Finset.range n, g * (1 + c) ^ (i + 1) :=
      Finset.sum_congr rfl (fun i _ => by ring)
    rw [hs]
    ring_nf
    simp [add_comm]

/-- The rule-based fallback produced in the `catch` block: zeroed
aggregate fields, one entry per analysed room, suggestions from the
binary 5-year cutoff. -/
lemma fallbackRecommendation_spec (roomAnalysis : List RoomWithMetrics) :
    (fallbackRecommendation roomAnalysis).totalSavings = 0
    ∧ (fallbackRecommendation roomAnalysis).breakevenPeriod = 0
    ∧ (fallbackRecommendation roomAnalysis).capacityNeeded = 0
    ∧ (fallbackRecommendation roomAnalysis).roomRecommendations.length
        = roomAnalysis.length
    ∧ (fallbackRecommendation roomAnalysis).roomRecommendations.map
          (fun rr => rr.suggestion)
        = roomAnalysis.map (fun r =>
            if r.metrics.roiYears < ((5 : ℚ) : WithTop ℚ)
            then "Convert to Solar (Rule-Based)"
            else "Stay on Grid (Rule-Based)") := by
  refine ⟨rfl, rfl, rfl, ?_, ?_⟩
  · simp [fallbackRecommendation]
  · simp [fallbackRecommendation, List.map_map, Function.comp_def]

/-! The claims. -/

/-- C1 (amended): the `paybackYears` field returned by
`calculateBuildingTotals` is the *unclamped* ROI ratio (the local
`totalROIYears` variable, `Infinity` when total yearly savings are not
positive), while the returned `totalROIYears` field is that same
quantity clamped to at most 999 by `Math.min`; the two returned fields
agree exactly when the unclamped value is at most 999. -/
theorem paybackYears_is_unclamped_totalROIYears (rooms : List Room)
    (devices : List Device) (s : SolarSettings) :
    (calculateBuildingTotals rooms devices s).building.totalROIYears
        = min ((calculateBuildingTotals rooms devices s).building.paybackYears)
            ((999 : ℚ) : WithTop ℚ)
    ∧ ((calculateBuildingTotals rooms devices s).building.paybackYears
          = (calculateBuildingTotals rooms devices s).building.totalROIYears
        ↔ (calculateBuildingTotals rooms devices s).building.paybackYears
            ≤ ((999 : ℚ) : WithTop ℚ)) := by
  refine ⟨rfl, ?_⟩
  exact eq_comm.trans min_eq_left_iff

/-- C1 counterexample: with no rooms and no devices the total yearly
savings are 0, so the returned `paybackYears` is the unclamped
`Infinity` while the returned `totalROIYears` field is the clamped 999 —
refuting the claim that `paybackYears` equals the returned (clamped)
`totalROIYears` on every input. -/
theorem paybackYears_ne_totalROIYears_cex :
    (calculateBuildingTotals [] [] initialSolarSettings).building.paybackYears
      ≠ (calculateBuildingTotals [] [] initialSolarSettings).building.totalROIYears := by
  simp [totalROIYearsUnclamped, totalCostYearGrid, roiCap]

/-- C1 witness: the amended claim instantiated at the spec's worked
example, where the unclamped ROI is finite. -/
theorem paybackYears_is_unclamped_totalROIYears_witness :
    (calculateBuildingTotals [sampleRoom] [sampleDevice] initialSolarSettings).building.totalROIYears
        = min ((calculateBuildingTotals [sampleRoom] [sampleDevice] initialSolarSettings).building.paybackYears)
            ((999 : ℚ) : WithTop ℚ)
    ∧ ((calculateBuildingTotals [sampleRoom] [sampleDevice] initialSolarSettings).building.paybackYears
          = (calculateBuildingTotals [sampleRoom] [sampleDevice] initialSolarSettings).building.totalROIYears
        ↔ (calculateBuildingTotals [sampleRoom] [sampleDevice] initialSolarSettings).building.paybackYears
            ≤ ((999 : ℚ) : WithTop ℚ)) :=
  paybackYears_is_unclamped_totalROIYears [sampleRoom] [sampleDevice] initialSolarSettings

/-- C2: on every failure of the advisory call — network error, missing
or malformed JSON — `generateLLMRecommendation` returns (it is a total
function, so it never throws) a recommendation with zeroed
`totalSavings`, `breakevenPeriod` and `capacityNeeded`, exactly one
per-room entry per input room, and each suggestion decided by the
5-year ROI cutoff: "Convert to Solar (Rule-Based)" when the room's
`roiYears < 5`, "Stay on Grid (Rule-Based)" otherwise. -/
theorem generateLLMRecommendation_fallback_spec (outcome : AdvisoryOutcome)
    (roomAnalysis : List RoomWithMetrics)
    (h : outcome.isFailure = true) :
    (generateLLMRecommendation outcome roomAnalysis).totalSavings = 0
    ∧ (generateLLMRecommendation outcome roomAnalysis).breakevenPeriod = 0
    ∧ (generateLLMRecommendation outcome roomAnalysis).capacityNeeded = 0
    ∧ (generateLLMRecommendation outcome roomAnalysis).roomRecommendations.length
        = roomAnalysis.length
    ∧ (generateLLMRecommendation outcome roomAnalysis).roomRecommendations.map
          (fun rr => rr.suggestion)
        = roomAnalysis.map (fun r =>
            if r.metrics.roiYears < ((5 : ℚ) : WithTop ℚ)
            then "Convert to Solar (Rule-Based)"
            else "Stay on Grid (Rule-Based)") := by
  cases outcome with
  | fetchError => exact fallbackRecommendation_spec roomAnalysis
  | missingJsonText => exact fallbackRecommendation_spec roomAnalysis
  | invalidJson => exact fallbackRecommendation_spec roomAnalysis
  | parsed result => exact Bool.noConfusion h

/-- C2 witness: a network failure on a single room whose ROI of 4.3
years is below the cutoff yields the solar-conversion fallback entry. -/
theorem generateLLMRecommendation_fallback_spec_witness :
    AdvisoryOutcome.isFailure AdvisoryOutcome.fetchError = true
    ∧ (generateLLMRecommendation AdvisoryOutcome.fetchError [sampleRoomAnalysis]).totalSavings = 0
    ∧ (generateLLMRecommendation AdvisoryOutcome.fetchError [sampleRoomAnalysis]).breakevenPeriod = 0
    ∧ (generateLLMRecommendation AdvisoryOutcome.fetchError [sampleRoomAnalysis]).capacityNeeded = 0
    ∧ (generateLLMRecommendation AdvisoryOutcome.fetchError [sampleRoomAnalysis]).roomRecommendations.length = 1
    ∧ (generateLLMRecommendation AdvisoryOutcome.fetchError [sampleRoomAnalysis]).roomRecommendations.map
          (fun rr => rr.suggestion)
        = ["Convert to Solar (Rule-Based)"] := by
  have h := generateLLMRecommendation_fallback_spec AdvisoryOutcome.fetchError
    [sampleRoomAnalysis] rfl
  have hlt : sampleRoomAnalysis.metrics.roiYears < ((5 : ℚ) : WithTop ℚ) := by
    show ((43/10 : ℚ) : WithTop ℚ) < ((5 : ℚ) : WithTop ℚ)
    exact WithTop.coe_lt_coe.mpr (by norm_num)
  refine ⟨rfl, h.1, h.2.1, h.2.2.1, h.2.2.2.1, ?_⟩
  rw [h.2.2.2.2]
  simp only [List.map_cons, List.map_nil, if_pos hlt]

/-- C3: the building-level `totalInstallationCost` equals the sum over
all returned rooms of the per-room `installationCost` — capacity sizing
is additive, by distributivity, in exact (rational) arithmetic. -/
theorem totalInstallationCost_additive (rooms : List Room)
    (devices : List Device) (s : SolarSettings) :
    (calculateBuildingTotals rooms devices s).building.totalInstallationCost
      = (((calculateBuildingTotals rooms devices s).rooms).map
          (fun rw => rw.metrics.installationCost)).sum := by
  simp only [calculateBuildingTotals_building, calculateBuildingTotals_rooms,
    buildingFromRooms_totalInstallationCost, List.map_map, Function.comp_def,
    computeRoomWithMetrics_installationCost]
  simp only [totalInstallationCost, totalRequiredCapacityKW, totalEnergyKWhDay,
    List.map_map, Function.comp_def, computeRoomWithMetrics_energy,
    roomInstallationCost, roomRequiredCapacityKW]
  by_cases hG : annualGenerationPerKW s > 0
  · simp only [if_pos hG]
    have h1 : (rooms.map (fun room =>
        roomEnergyKWhDay devices s.electricityRate room * daysPerYear
          / annualGenerationPerKW s * s.solarCostPerKW)).sum
        = (rooms.map (fun room =>
            roomEnergyKWhDay devices s.electricityRate room)).sum
          * (daysPerYear / annualGenerationPerKW s * s.solarCostPerKW) := by
      rw [← List.sum_map_mul_right]
      congr 1
      apply List.map_congr_left
      intro room _
      ring
    rw [h1]
    ring
  · simp only [if_neg hG]
    simp

/-- C4: every room of the result has its unclamped ROI equal to
`Infinity` (`⊤`) and its returned `roiYears` equal to 999 whenever its
`yearlySavings` is 0; and whenever the unclamped ROI is at most 999, the
returned `roiYears` is exactly the unclamped value (the clamp is the
identity below the ceiling). -/
theorem roomRoiYears_zero_savings_clamp (rooms : List Room)
    (devices : List Device) (s : SolarSettings) (room : Room)
    (h : room ∈ rooms) :
    computeRoomWithMetrics devices s room
        ∈ (calculateBuildingTotals rooms devices s).rooms
    ∧ ((computeRoomWithMetrics devices s room).metrics.yearlySavings = 0 →
        roomRoiYears devices s room = ⊤
        ∧ (computeRoomWithMetrics devices s room).metrics.roiYears
            = ((999 : ℚ) : WithTop ℚ))
    ∧ (roomRoiYears devices s room ≤ ((999 : ℚ) : WithTop ℚ) →
        (computeRoomWithMetrics devices s room).metrics.roiYears
          = roomRoiYears devices s room) := by
  refine ⟨List.mem_map_of_mem _ h, ?_, ?_⟩
  · intro hys
    have hys0 : roomCostYearGrid devices s.electricityRate room = 0 := hys
    have htop : roomRoiYears devices s room = ⊤ := by
      simp [roomRoiYears, hys0]
    refine ⟨htop, ?_⟩
    rw [computeRoomWithMetrics_roiYears, htop]
    exact min_eq_right le_top
  · intro hle
    rw [computeRoomWithMetrics_roiYears]
    exact min_eq_left hle

/-- C4 witness: a room with no devices has zero yearly savings, an
unclamped ROI of `Infinity`, and a returned `roiYears` of 999. -/
theorem roomRoiYears_zero_savings_clamp_witness :
    sampleRoom ∈ [sampleRoom]
    ∧ (computeRoomWithMetrics [] initialSolarSettings sampleRoom).metrics.yearlySavings = 0
    ∧ roomRoiYears [] initialSolarSettings sampleRoom = ⊤
    ∧ (computeRoomWithMetrics [] initialSolarSettings sampleRoom).metrics.roiYears
        = ((999 : ℚ) : WithTop ℚ) := by
  have hmem : sampleRoom ∈ [sampleRoom] := List.mem_singleton.mpr rfl
  have h := roomRoiYears_zero_savings_clamp [sampleRoom] [] initialSolarSettings
    sampleRoom hmem
  have hys : (computeRoomWithMetrics [] initialSolarSettings sampleRoom).metrics.yearlySavings = 0 := rfl
  exact ⟨hmem, hys, (h.2.1 hys).1, (h.2.1 hys).2⟩

/-- C5: `calculateDeviceMetrics` returns
`energyKWhDay = (powerW / 1000) * quantity * usageHours`,
`costDay = energyKWhDay * rate`, `costMonth = costDay * 365.25/12`,
`costYear = costDay * 365.25`; in particular all four are 0 when
`usageHours = 0` or `quantity = 0`. -/
theorem calculateDeviceMetrics_formulas (device : Device) (rate : ℚ) :
    (calculateDeviceMetrics device rate).energyKWhDay
        = device.powerW / 1000 * device.quantity * device.usageHours
    ∧ (calculateDeviceMetrics device rate).costDay
        = (calculateDeviceMetrics device rate).energyKWhDay * rate
    ∧ (calculateDeviceMetrics device rate).costMonth
        = (calculateDeviceMetrics device rate).costDay * (daysPerYear / 12)
    ∧ (calculateDeviceMetrics device rate).costYear
        = (calculateDeviceMetrics device rate).costDay * daysPerYear
    ∧ (device.usageHours = 0 ∨ device.quantity = 0 →
        (calculateDeviceMetrics device rate).energyKWhDay = 0
        ∧ (calculateDeviceMetrics device rate).costDay = 0
        ∧ (calculateDeviceMetrics device rate).costMonth = 0
        ∧ (calculateDeviceMetrics device rate).costYear = 0) := by
  refine ⟨rfl, rfl, rfl, rfl, ?_⟩
  rintro (h | h) <;> simp [calculateDeviceMetrics, h]

/-- C5 witness: a device with zero usage hours has zero energy and
costs. -/
theorem calculateDeviceMetrics_formulas_witness :
    (idleDevice.usageHours = 0 ∨ idleDevice.quantity = 0)
    ∧ (calculateDeviceMetrics idleDevice 9).energyKWhDay = 0
    ∧ (calculateDeviceMetrics idleDevice 9).costDay = 0
    ∧ (calculateDeviceMetrics idleDevice 9).costMonth = 0
    ∧ (calculateDeviceMetrics idleDevice 9).costYear = 0 := by
  have h := calculateDeviceMetrics_formulas idleDevice 9
  exact ⟨Or.inl rfl, h.2.2.2.2 (Or.inl rfl)⟩

/-- C6: for a positive integer lifetime, `longTermSavings` is the
geometric accumulation `∑ totalCostYearGrid * (1 + annualInflation)^i`
for `i` from 0 to `lifetimeYears - 1` (first year uninflated, because
inflation is applied after accumulation), minus `totalInstallationCost`;
with zero inflation this is
`lifetimeYears * totalCostYearGrid - totalInstallationCost`. -/
theorem longTermSavings_formula (rooms : List Room) (devices : List Device)
    (s : SolarSettings) (hL : 0 < s.lifetimeYears) :
    (calculateBuildingTotals rooms devices s).building.longTermSavings
        = (∑ i ∈ Finset.range s.lifetimeYears,
            (calculateBuildingTotals rooms devices s).building.totalCostYearGrid
              * (1 + s.annualInflation) ^ i)
          - (calculateBuildingTotals rooms devices s).building.totalInstallationCost
    ∧ (s.annualInflation = 0 →
        (calculateBuildingTotals rooms devices s).building.longTermSavings
          = (s.lifetimeYears : ℚ)
              * (calculateBuildingTotals rooms devices s).building.totalCostYearGrid
            - (calculateBuildingTotals rooms devices s).building.totalInstallationCost) := by
  have h1 : (calculateBuildingTotals rooms devices s).building.longTermSavings
      = (∑ i ∈ Finset.range s.lifetimeYears,
          (calculateBuildingTotals rooms devices s).building.totalCostYearGrid
            * (1 + s.annualInflation) ^ i)
        - (calculateBuildingTotals rooms devices s).building.totalInstallationCost := by
    rw [calculateBuildingTotals_building, buildingFromRooms_longTermSavings,
      futureSavingsLoop_closed, buildingFromRooms_totalCostYearGrid,
      buildingFromRooms_totalInstallationCost]
  refine ⟨h1, fun h0 => ?_⟩
  rw [h1, h0]
  simp [Finset.sum_const, nsmul_eq_mul]

/-- C6 witness: with zero inflation and a 2-year lifetime, the
long-term savings are twice the yearly grid cost minus the installation
cost. -/
theorem longTermSavings_formula_witness :
    0 < settingsFlat.lifetimeYears
    ∧ settingsFlat.annualInflation = 0
    ∧ (calculateBuildingTotals [sampleRoom] [sampleDevice] settingsFlat).building.longTermSavings
        = (settingsFlat.lifetimeYears : ℚ)
            * (calculateBuildingTotals [sampleRoom] [sampleDevice] settingsFlat).building.totalCostYearGrid
          - (calculateBuildingTotals [sampleRoom] [sampleDevice] settingsFlat).building.totalInstallationCost := by
  have h := longTermSavings_formula [sampleRoom] [sampleDevice] settingsFlat (by decide)
  exact ⟨by decide, rfl, h.2 rfl⟩

/-- C7: when `sunlightHours = 0` or `efficiencyFactor = 0`, the guard
`annualGenerationPerKW > 0` is false — so the else branch is taken and
the consumption/generation division is never evaluated with a zero
divisor — and every room's `requiredCapacityKW` as well as the
building's `totalRequiredCapacityKW` are 0. -/
theorem zero_generation_zero_capacity (rooms : List Room)
    (devices : List Device) (s : SolarSettings)
    (h : s.sunlightHours = 0 ∨ s.efficiencyFactor = 0) :
    ¬ annualGenerationPerKW s > 0
    ∧ (∀ rw ∈ (calculateBuildingTotals rooms devices s).rooms,
        rw.metrics.requiredCapacityKW = 0)
    ∧ (calculateBuildingTotals rooms devices s).building.totalRequiredCapacityKW = 0 := by
  have hG : annualGenerationPerKW s = 0 := by
    rcases h with h | h <;> simp [annualGenerationPerKW, h]
  refine ⟨by simp [hG], ?_, ?_⟩
  · intro rw hrw
    rw [calculateBuildingTotals_rooms] at hrw
    rcases List.mem_map.mp hrw with ⟨room, _, rfl⟩
    rw [computeRoomWithMetrics_requiredCapacityKW]
    have hcap : roomRequiredCapacityKW devices s room = 0 := by
      simp [roomRequiredCapacityKW, hG]
    simp [hcap]
  · rw [calculateBuildingTotals_building, buildingFromRooms_totalRequiredCapacityKW]
    simp [totalRequiredCapacityKW, hG]

/-- C7 witness: with zero sunlight hours the sample room and building
get zero required capacity. -/
theorem zero_generation_zero_capacity_witness :
    (settingsNoSun.sunlightHours = 0 ∨ settingsNoSun.efficiencyFactor = 0)
    ∧ ¬ annualGenerationPerKW settingsNoSun > 0
    ∧ (computeRoomWithMetrics [sampleDevice] settingsNoSun sampleRoom).metrics.requiredCapacityKW = 0
    ∧ (calculateBuildingTotals [sampleRoom] [sampleDevice] settingsNoSun).building.totalRequiredCapacityKW = 0 := by
  have hs : settingsNoSun.sunlightHours = 0 ∨ settingsNoSun.efficiencyFactor = 0 :=
    Or.inl rfl
  have h := zero_generation_zero_capacity [sampleRoom] [sampleDevice] settingsNoSun hs
  have hmem : computeRoomWithMetrics [sampleDevice] settingsNoSun sampleRoom
      ∈ (calculateBuildingTotals [sampleRoom] [sampleDevice] settingsNoSun).rooms := by
    rw [calculateBuildingTotals_rooms]
    exact List.mem_map_of_mem _ (List.mem_singleton.mpr rfl)
  exact ⟨hs, h.1, h.2.1 _ hmem, h.2.2⟩

/-- C8: every entry of the payload built for the advisory service gets
its `suggestedAction` from the room's clamped `roiYears` by the fixed
thresholds: "Convert to Solar" below 5 years, "Hybrid Model" from 5 to
below 10 years, "Stay on Grid" otherwise. -/
theorem analysisPayload_suggestedAction (roomAnalysis : List RoomWithMetrics) :
    (analysisPayload roomAnalysis).map (fun e => e.suggestedAction)
      = roomAnalysis.map (fun r =>
          if r.metrics.roiYears < ((5 : ℚ) : WithTop ℚ) then "Convert to Solar"
          else if r.metrics.roiYears < ((10 : ℚ) : WithTop ℚ) then "Hybrid Model"
          else "Stay on Grid") := by
  simp [analysisPayload, List.map_map, Function.comp_def]

/-- C9: devices whose `roomId` matches no room of the input list
contribute nothing — the whole result of `calculateBuildingTotals` is
unchanged when they are removed. -/
theorem orphan_devices_ignored (rooms : List Room) (devices : List Device)
    (s : SolarSettings) :
    calculateBuildingTotals rooms devices s
      = calculateBuildingTotals rooms (devices.filter (knownRoom rooms)) s := by
  have hmap : rooms.map (computeRoomWithMetrics (devices.filter (knownRoom rooms)) s)
      = rooms.map (computeRoomWithMetrics devices s) := by
    apply List.map_congr_left
    intro room hroom
    have hlist : roomDeviceList (devices.filter (knownRoom rooms)) room
        = roomDeviceList devices room := by
      show (devices.filter (knownRoom rooms)).filter (fun d => d.roomId == room.id)
          = devices.filter (fun d => d.roomId == room.id)
      apply filter_filter_of_imp
      intro d hd
      show rooms.any (fun rm => d.roomId == rm.id) = true
      exact List.any_eq_true.mpr ⟨room, hroom, hd⟩
    simp [computeRoomWithMetrics, roomDevicesWithMetrics, roomEnergyKWhDay,
      roomCostYearGrid, roomRequiredCapacityKW, roomInstallationCost,
      roomRoiYears, hlist]
  simp only [calculateBuildingTotals]
  rw [hmap]

/-- C10: the returned rooms list has exactly one entry per input room,
in the input order, preserving the `id`, `name` and `purpose` fields of
each room (the spread `{ ...room, devices, metrics }` only adds the
`devices` and `metrics` fields). -/
theorem calculateBuildingTotals_rooms_frame (rooms : List Room)
    (devices : List Device) (s : SolarSettings) :
    ((calculateBuildingTotals rooms devices s).rooms).map
        (fun rw => (rw.id, rw.name, rw.purpose))
      = rooms.map (fun room => (room.id, room.name, room.purpose)) := by
  simp [calculateBuildingTotals_rooms, List.map_map, Function.comp_def,
    computeRoomWithMetrics]

end SolarAdvisor
